import Mathlib

/-!
Verification of the SOCIB FAIR_eva plugin (src/plugins/socib/plugin.py)
against its natural-language specification.

The development shallowly embeds the metadata normalization engine
(class MetadataValues: the gather dispatcher and its per-kind rules,
and the license vocabulary validator) and the indicator scoring rules
of class Plugin that the claims reference.

Modelling conventions:
* Python runtime values that flow through the normalizer are embedded
  as the inductive type Value (strings, ints, None, lists, dicts).
* A Python expression that can raise is embedded as an Option- or
  Except-valued function; a swallowed exception is an explicit branch.
* Python ints and floats that become indicator points are embedded as
  Rat; every arithmetic expression in the plugin evaluates exactly on
  the rationals involved (counts divided by counts, times 100), so no
  floating-point rounding is observable except in round(100/n), which
  is modelled separately (see pyRound100Div).
* External collaborators (api.utils.is_spdx_license, the FAIRsharing
  registry, the ConfigTerms metadata slices, the translation function,
  the landing-page fetch) are parameters of the embedded functions;
  the translation function is the identity in the "en" locale used by
  the plugin.
-/

/-- Embedded Python runtime value: the shapes that reach the
normalizer (`element_values` and its entries) in plugin.py. -/
inductive Value where
  | vstr : String → Value
  | vint : Int → Value
  | vnone : Value
  | vlist : List Value → Value
  | vdict : List (String × Value) → Value

/-- Is the value a Python list? -/
def Value.isList : Value → Bool
  | .vlist _ => true
  | _ => false

/-- Is the value a Python str? -/
def Value.isStr : Value → Bool
  | .vstr _ => true
  | _ => false

/-- Python iteration `for x in v`: lists yield their elements, strings
yield their one-character substrings, dicts yield their keys; other
values raise TypeError (modelled as none). -/
def pyIterate : Value → Option (List Value)
  | .vlist l => some l
  | .vstr s => some (s.data.map (fun c => Value.vstr (String.singleton c)))
  | .vdict d => some (d.map (fun p => Value.vstr p.1))
  | _ => none

/-- Python subscription `v[k]` with a string key: dict lookup (KeyError
when the key is missing); any non-dict raises TypeError. Both failure
modes are none. -/
def pyGetItem (v : Value) (k : String) : Option Value :=
  match v with
  | .vdict d => d.lookup k
  | _ => none

/-- Python `v.get(k, default)`: only dicts have the .get attribute;
other values raise AttributeError (none). -/
def pyDictGet (v : Value) (k : String) (dflt : Value) : Option Value :=
  match v with
  | .vdict d => some ((d.lookup k).getD dflt)
  | _ => none

/-- Python membership `k in v` for a string k: key membership for
dicts, substring test for strings, element membership for lists;
ints and None raise TypeError (none). -/
def pyContains (k : String) (v : Value) : Option Bool :=
  match v with
  | .vdict d => some (d.any (fun p => p.1 == k))
  | .vstr s => some (2 ≤ (s.splitOn k).length)
  | .vlist l => some (l.any (fun x => match x with
      | .vstr s => s == k
      | _ => false))
  | _ => none

/-- MetadataValues._get_identifiers_metadata: passthrough of the raw
element values (plugin.py line 74). Never raises. -/
def get_identifiers_metadata (element_values : Value) : Option Value :=
  some element_values

/-- MetadataValues._get_identifiers_data: the list comprehension
`[value_data["value"] for value_data in element_values]`
(plugin.py line 86); any entry that is not a dict carrying the key
"value" raises, and a non-iterable input raises. -/
def get_identifiers_data (element_values : Value) : Option Value := do
  let xs ← pyIterate element_values
  let vals ← xs.mapM (fun x => pyGetItem x "value")
  return Value.vlist vals

/-- MetadataValues._get_temporal_coverage: emits one (startDate,
endDate) pair per entry via `.get` with default "" (plugin.py lines
97-100); the Python tuple is embedded as a two-element list. -/
def get_temporal_coverage (element_values : Value) : Option Value := do
  let xs ← pyIterate element_values
  let vals ← xs.mapM (fun x => do
    let s ← pyDictGet x "startDate" (Value.vstr "")
    let e ← pyDictGet x "endDate" (Value.vstr "")
    return Value.vlist [s, e])
  return Value.vlist vals

/-- MetadataValues._get_person: the guarded comprehension
`[value_data["@id"] for value_data in element_values if "@id" in value_data]`
(plugin.py lines 113-117): entries answering false to the membership
test are skipped; an entry answering true is then subscripted, which
raises for non-dicts. -/
def get_person (element_values : Value) : Option Value := do
  let xs ← pyIterate element_values
  let vals ← xs.foldlM (fun acc x => do
    let c ← pyContains "@id" x
    if c then do
      let y ← pyGetItem x "@id"
      pure (acc ++ [y])
    else
      pure acc) []
  return Value.vlist vals

/-- Modelled from the spec: success of the external collaborator
dateutil.parser.isoparse on a string (spec section 4.1: the Date rule
keeps "entries that parse as ISO-8601 timestamps"). The exact ISO-8601
grammar is external to the repository; this model requires a four
digit year prefix, which no theorem below depends on. -/
def isoparseOk (s : String) : Bool :=
  4 ≤ s.length && (s.data.take 4).all Char.isDigit

/-- MetadataValues._get_date (plugin.py lines 126-135): tries isoparse
on every entry, catching only ValueError (a string that does not
parse) by skipping the entry; a non-string entry makes isoparse raise
TypeError, which the rule does not catch, so the whole rule raises. -/
def get_date (element_values : Value) : Option Value := do
  let xs ← pyIterate element_values
  let vals ← xs.foldlM (fun acc x => match x with
    | Value.vstr s => some (if isoparseOk s then acc ++ [Value.vstr s] else acc)
    | _ => none) ([] : List Value)
  return Value.vlist vals

/-- The dispatch chain of MetadataValues.gather (plugin.py lines
38-49): five recognized element kinds; every other kind raises
NotImplementedError, modelled as none. -/
def gatherDispatch (element : String) (element_values : Value) : Option Value :=
  if element = "Metadata Identifier" then get_identifiers_metadata element_values
  else if element = "Data Identifier" then get_identifiers_data element_values
  else if element = "Temporal Coverage" then get_temporal_coverage element_values
  else if element = "Person Identifier" then get_person element_values
  else if element = "Date" then get_date element_values
  else none

/-- The except-branch of MetadataValues.gather (plugin.py lines 52-54):
`_values = element_values; if isinstance(element_values, str): _values = [element_values]`.
Only a str input is wrapped into a one-element list; every other
input, lists and non-string scalars alike, is returned unchanged. -/
def gatherFallback (element_values : Value) : Value :=
  match element_values with
  | .vstr s => Value.vlist [Value.vstr s]
  | v => v

/-- MetadataValues.gather (plugin.py lines 28-65): dispatch on the
element kind; any exception from a rule, and the NotImplementedError
raised for unrecognized kinds, is caught and replaced by the fallback.
The `finally: return _values` makes the method total: it never
propagates an exception, which the totality of this Lean function
mirrors. -/
def gather (element_values : Value) (element : String) : Value :=
  match gatherDispatch element element_values with
  | some r => r
  | none => gatherFallback element_values

/-- The SPDX loop body of MetadataValues._validate_license (plugin.py
lines 147-159): each license is appended, in input order, either to
the valid or to the non_valid bucket, according to the external
api.utils.is_spdx_license check (a parameter here). -/
def spdxPartition (licenses : List String) (is_spdx : String → Bool) :
    List String × List String :=
  licenses.foldl
    (fun acc l => if is_spdx l then (acc.1 ++ [l], acc.2) else (acc.1, acc.2 ++ [l]))
    ([], [])

/-- MetadataValues._validate_license (plugin.py lines 137-165): for
every configured vocabulary id an entry with empty valid/non_valid
buckets is created first (line 141); only the id "spdx" then fills
the buckets; any other id leaves the freshly created empty entry in
place and merely logs a warning. The Python dict, iterated and filled
in insertion order, is embedded as an association list. -/
def validate_license (licenses : List String)
    (vocabularies : List (String × String)) (is_spdx : String → Bool) :
    List (String × (List String × List String)) :=
  vocabularies.map (fun vu =>
    if vu.1 == "spdx" then (vu.1, spdxPartition licenses is_spdx)
    else (vu.1, ([], [])))

/-- Message payload of an indicator result: the plugin is dynamically
typed and stores under the "message" key either a plain string, a
list of strings (rda_a1_01m), or a whole nested message list
(rda_r1_3_01d). Points are embedded as rationals: the plugin only
ever produces ints and exact small-fraction floats. -/
inductive Payload where
  | s : String → Payload
  | ls : List String → Payload
  | nested : List (Payload × Rat) → Payload

/-- Python repr of a list of plain strings, as produced by the
"%s" formatting of a list in the log and result messages. -/
def pyReprList (xs : List String) : String :=
  "[" ++ String.intercalate ", " (xs.map (fun x => "\x27" ++ x ++ "\x27")) ++ "]"

/-- Python 3 round(100 / n) for n ≥ 1 (plugin.py line 1028):
nearest integer with ties to even. The Python expression divides in
IEEE double precision first; 100/n is an exact half-integer only for
n in {8, 40, 200}, all exactly representable, and otherwise the
rational 100/n is at distance at least 1/(2n) from the nearest
half-integer boundary while the float error is below 2^-45, so the
double rounds to the same integer as the exact rational and this
integer-arithmetic model is exact. -/
def pyRound100Div (n : Nat) : Nat :=
  let q := 100 / n
  let r := 100 % n
  if 2 * r < n then q
  else if n < 2 * r then q + 1
  else if q % 2 = 0 then q else q + 1

/-- Plugin.rda_r1_1_02m (plugin.py lines 1004-1055): split-credit
license scoring. The license list comes from the ConfigTerms slice
kwargs["License"]; the external api.utils.is_spdx_license check is
the parameter is_spdx (with the machine_readable flag folded in).
With an empty license list the unguarded
`points_per_license = round(max_points / license_num)` raises
ZeroDivisionError, embedded as Except.error. -/
def rda_r1_1_02m (is_spdx : String → Bool) (license_list : List String) :
    Except String (Rat × List (Payload × Rat)) :=
  let license_num := license_list.length
  if license_num = 0 then Except.error "ZeroDivisionError"
  else
    let points_per_license := pyRound100Div license_num
    let license_standard_list := license_list.filter is_spdx
    let points := license_list.foldl
      (fun acc l => if is_spdx l then acc + points_per_license else acc) 0
    let msg0 :=
      if points = 100 then
        "License/s in use are considered as standard according to SPDX license list: "
          ++ pyReprList license_standard_list
      else if 0 < points then
        "A subset of the license/s in use (" ++ toString license_standard_list.length
          ++ " out of " ++ toString license_num
          ++ ") are standard according to SDPX license list: "
          ++ pyReprList license_standard_list
      else
        "None of the license/s defined are standard according to SPDX license list: "
          ++ pyReprList license_list
    let msg := msg0 ++ " (points: " ++ toString points ++ ")"
    Except.ok ((points : Rat), [(Payload.s msg, (points : Rat))])

/-- Points projection of a fallible indicator result. -/
def exPoints (e : Except String (Rat × List (Payload × Rat))) : Option Rat :=
  e.toOption.map Prod.fst

/-- Plugin.rda_f4_01m (plugin.py lines 303-335): 100 when the
metadata table built at initialization is non-empty, else 0. -/
def rda_f4_01m (metadata_nonempty : Bool) : Rat × List (Payload × Rat) :=
  if metadata_nonempty then
    (100, [(Payload.s "Metadata is searchable by Google because of the JSON-LD record included in the landing page", 100)])
  else
    (0, [(Payload.s "No metadata record is included as a JSON-LD object in the data product\x27s landing page. Please, contact to repository data steward", 0)])

/-- The 2x2 decision chain of Plugin.rda_a1_01m (plugin.py lines
380-411), as a function of the primary access-metadata signal
(points) and the secondary registration signal (points_2): returns
the final points and the appended message entries. -/
def a1_01m_decision (points points_2 : Rat) (msg_2 term_repr : String) :
    Rat × List (Payload × Rat) :=
  if points_2 = 100 ∧ points = 100 then
    (points, [(Payload.s ("Data can be accessed manually" ++ " | " ++ msg_2), points_2)])
  else if points_2 = 0 ∧ points = 100 then
    (points, [(Payload.s ("Data can not be accessed manually" ++ " | " ++ msg_2), points_2)])
  else if points_2 = 100 ∧ points = 0 then
    (100, [(Payload.s ("Data can be accessed manually" ++ " | " ++ msg_2), points_2)])
  else if points_2 = 0 ∧ points = 0 then
    (points, [(Payload.s ("No access information can be found in the metadata. Please, add information to the following term(s)" ++ " " ++ term_repr), points_2)])
  else
    (points, [])

/-- Plugin.rda_a1_01m (plugin.py lines 337-413): term_values are the
text_value column of the terms_access metadata slice; the loop sets
points to 100 per row, so points is 0 exactly when the slice is
empty; the first message entry carries the whole per-row string list;
points_2 is the fixed constant 100 of line 378 (registration
required), combined through the decision chain. -/
def rda_a1_01m (term_values : List String) (term_repr : String) :
    Rat × List (Payload × Rat) :=
  let msg_st_list := term_values.map (fun tv => "Metadata found for access" ++ ": " ++ tv)
  let points : Rat := if term_values.isEmpty then 0 else 100
  let first : Payload × Rat := (Payload.ls msg_st_list, points)
  let d := a1_01m_decision points 100
    "Data is only downloadable upon registration in the SOCIB website" term_repr
  (d.1, first :: d.2)

/-- Plugin.rda_a1_02m (plugin.py lines 415-449): the landing page is
fetched and parsed inside a try whose except only logs; the input
is the number of application/ld+json script tags found, or none when
the retrieval or parsing raised. In the latter case control reaches
`return (points, ...)` with the local points and msg never assigned,
so the method raises NameError (Except.error). -/
def rda_a1_02m : Option Nat → Except String (Rat × List (Payload × Rat))
  | some n =>
    if 0 < n then
      Except.ok (100, [(Payload.s "JSON-LD available in the landing page. Javascript takes care of formatting it for human readability", 100)])
    else
      Except.ok (0, [(Payload.s "No JSON-LD avaialble in the landing page", 0)])
  | none => Except.error "NameError"

/-- Environment of Plugin.rda_i1_01d: the configured data_standard
list and the external FAIRsharing registry query, projected to the
abbreviation attribute of each returned entry — the only field line
696 consults. -/
structure FairsharingEnv where
  data_standard : List String
  fairsharing : String → List String

/-- Plugin.rda_i1_01d (plugin.py lines 675-721): a standard counts
when some registry entry matches its abbreviation exactly; the
division by len(data_standards) is guarded by the
`if data_standards:` check of line 718, so the function is total
(no ZeroDivisionError is reachable) and returns 0 on an empty list. -/
def rda_i1_01d (env : FairsharingEnv) : Rat × List (Payload × Rat) :=
  let elements_using_vocabulary :=
    env.data_standard.filter
      (fun d => !((env.fairsharing d).filter (fun a => a == d)).isEmpty)
  let msg := "Found " ++ toString elements_using_vocabulary.length ++ " ("
      ++ String.intercalate ", " elements_using_vocabulary ++ ") out of "
      ++ toString env.data_standard.length ++ " ("
      ++ String.intercalate ", " env.data_standard
      ++ ") data standards using standard vocabularies"
  let points : Rat := if env.data_standard.isEmpty then 0
    else (elements_using_vocabulary.length : Rat) / (env.data_standard.length : Rat) * 100
  (points, [(Payload.s msg, points)])

/-- Plugin.rda_i1_02d (plugin.py lines 806-827): exact forward of
rda_i1_01d, tuple returned unchanged. -/
def rda_i1_02d (env : FairsharingEnv) : Rat × List (Payload × Rat) :=
  rda_i1_01d env

/-- Plugin.rda_i2_01d (plugin.py lines 852-871): exact forward of
rda_i1_01d, tuple returned unchanged. -/
def rda_i2_01d (env : FairsharingEnv) : Rat × List (Payload × Rat) :=
  rda_i1_01d env

/-- Plugin.rda_r1_3_01d (plugin.py lines 1166-1181): calls
rda_i1_01d, but re-wraps the returned MESSAGE LIST as the message of
a single fresh entry: `return (_points, [{"message": _msg, "points": _points}])`
where _msg is already a list of message dicts. -/
def rda_r1_3_01d (env : FairsharingEnv) : Rat × List (Payload × Rat) :=
  let r := rda_i1_01d env
  (r.1, [(Payload.nested r.2, r.1)])

/-- Plugin.rda_i1_01m (plugin.py lines 653-673): delegates to the
base-framework eval_validated_basic (external to this plugin); its
(message, points) output is the parameter. -/
def rda_i1_01m (evb : String × Rat) : Rat × List (Payload × Rat) :=
  (evb.2, [(Payload.s evb.1, evb.2)])

/-- Plugin.rda_i2_01m (plugin.py lines 829-850): exact forward of
rda_i1_01m, tuple returned unchanged. -/
def rda_i2_01m (evb : String × Rat) : Rat × List (Payload × Rat) :=
  rda_i1_01m evb

/-- Plugin.rda_i3_03m (plugin.py lines 962-1002): terms maps each
configured relation element to its per-vocabulary validation result,
projected to the valid list — the only field line 986 consults.
One audit message is emitted per (element, vocabulary) pair whose
valid list is non-empty; qualified references exist when at least one
such pair exists. -/
def rda_i3_03m (terms : List (String × List (String × List String))) :
    Rat × List (Payload × Rat) :=
  let msg_list := terms.flatMap (fun et =>
    (et.2.filter (fun vv => !vv.2.isEmpty)).map (fun vv =>
      "\x27" ++ et.1 ++ "\x27 element uses vocabulary " ++ vv.1
        ++ " in \x27" ++ pyReprList vv.2 ++ "\x27"))
  if msg_list.isEmpty then
    (0, [(Payload.s "Metadata does not have qualified references to other metadata", 0)])
  else
    (100, [(Payload.s ("Metadata has qualified references to other metadata: "
        ++ String.intercalate ", " msg_list), 100)])

/-- Plugin.rda_i3_01m (plugin.py lines 873-892): exact forward of
rda_i3_03m, tuple returned unchanged. -/
def rda_i3_01m (terms : List (String × List (String × List String))) :
    Rat × List (Payload × Rat) :=
  rda_i3_03m terms

/-- Concrete stand-in for the external SPDX check, validating exactly
MIT and CC-BY-4.0. -/
def sampleSpdx : String → Bool :=
  fun x => x == "MIT" || x == "CC-BY-4.0"

/-- Sample FAIRsharing environment: one configured data standard whose
registry lookup returns an exactly matching abbreviation. -/
def fsEnvSample : FairsharingEnv :=
  ⟨["netCDF"], fun _ => ["netCDF"]⟩

/-- Empty-configuration FAIRsharing environment. -/
def fsEnvEmpty : FairsharingEnv :=
  ⟨[], fun _ => []⟩

/-- Shape lemma: a rule built as iterate-then-transform-then-wrap
returns a Python list whenever it succeeds. -/
theorem bind_bind_vlist_isList {o : Option (List Value)}
    {g : List Value → Option (List Value)} {r : Value}
    (h : (o.bind fun xs => (g xs).bind fun vals => pure (Value.vlist vals)) = some r) :
    r.isList := by
  rw [Option.bind_eq_some] at h
  obtain ⟨xs, _, h⟩ := h
  rw [Option.bind_eq_some] at h
  obtain ⟨vals, _, h⟩ := h
  simp only [Option.pure_def, Option.some.injEq] at h
  rw [← h]
  rfl

theorem get_identifiers_data_isList {v r : Value}
    (h : get_identifiers_data v = some r) : r.isList := by
  unfold get_identifiers_data at h
  simp only [Option.bind_eq_bind] at h
  exact bind_bind_vlist_isList h

theorem get_temporal_coverage_isList {v r : Value}
    (h : get_temporal_coverage v = some r) : r.isList := by
  unfold get_temporal_coverage at h
  simp only [Option.bind_eq_bind] at h
  exact bind_bind_vlist_isList h

theorem get_person_isList {v r : Value}
    (h : get_person v = some r) : r.isList := by
  unfold get_person at h
  simp only [Option.bind_eq_bind] at h
  exact bind_bind_vlist_isList h

theorem get_date_isList {v r : Value}
    (h : get_date v = some r) : r.isList := by
  unfold get_date at h
  simp only [Option.bind_eq_bind] at h
  exact bind_bind_vlist_isList h

/-- Whenever the dispatched rules succeed on a list input, they return
a list; hence gather preserves list-ness. -/
theorem gather_isList_of_isList (element : String) (v : Value)
    (hv : v.isList) : (gather v element).isList := by
  unfold gather
  cases hd : gatherDispatch element v with
  | none =>
    unfold gatherFallback
    cases v with
    | vstr s => simp [Value.isList] at hv
    | vlist l => exact hv
    | vint n => simp [Value.isList] at hv
    | vnone => simp [Value.isList] at hv
    | vdict d => simp [Value.isList] at hv
  | some r =>
    unfold gatherDispatch at hd
    by_cases h1 : element = "Metadata Identifier"
    · rw [if_pos h1] at hd
      unfold get_identifiers_metadata at hd
      cases hd; exact hv
    · rw [if_neg h1] at hd
      by_cases h2 : element = "Data Identifier"
      · rw [if_pos h2] at hd; exact get_identifiers_data_isList hd
      · rw [if_neg h2] at hd
        by_cases h3 : element = "Temporal Coverage"
        · rw [if_pos h3] at hd; exact get_temporal_coverage_isList hd
        · rw [if_neg h3] at hd
          by_cases h4 : element = "Person Identifier"
          · rw [if_pos h4] at hd; exact get_person_isList hd
          · rw [if_neg h4] at hd
            by_cases h5 : element = "Date"
            · rw [if_pos h5] at hd; exact get_date_isList hd
            · rw [if_neg h5] at hd; exact absurd hd (by simp)

theorem spdxPartition_aux (is_spdx : String → Bool) (licenses : List String)
    (a b : List String) :
    licenses.foldl
      (fun acc l => if is_spdx l then (acc.1 ++ [l], acc.2) else (acc.1, acc.2 ++ [l]))
      (a, b)
    = (a ++ licenses.filter is_spdx, b ++ licenses.filter (fun l => !(is_spdx l))) := by
  induction licenses generalizing a b with
  | nil => simp
  | cons hd tl ih =>
    by_cases h : is_spdx hd
    · simp only [List.foldl_cons, if_pos h, ih, List.filter_cons, h]
      simp
    · simp only [List.foldl_cons, if_neg h, ih, List.filter_cons]
      simp [h]

/-- The loop appends every license to exactly one bucket, so the
partition is the pair of complementary filters. -/
theorem spdxPartition_eq_filter (licenses : List String) (is_spdx : String → Bool) :
    spdxPartition licenses is_spdx
    = (licenses.filter is_spdx, licenses.filter (fun l => !(is_spdx l))) := by
  unfold spdxPartition
  simpa using spdxPartition_aux is_spdx licenses [] []

/-- C2 counterexample: the claim says a vocabulary id with no
implemented backend (anything other than "spdx") contributes no entry
at all, so the result map lacks the key. On the code the key IS
present and maps to empty valid/non_valid lists: for licenses ["MIT"]
and the single configured vocabulary "eu_licenses" the result is
exactly [("eu_licenses", ([], []))] and the lookup succeeds. -/
theorem validate_license_unimplemented_key_counterexample :
    validate_license ["MIT"] [("eu_licenses", "url")] (fun _ => true)
      = [("eu_licenses", ([], []))]
    ∧ List.lookup "eu_licenses"
        (validate_license ["MIT"] [("eu_licenses", "url")] (fun _ => true))
      = some ([], []) :=
  ⟨rfl, rfl⟩

/-- C2 amended: every configured vocabulary id contributes exactly one
entry, in configuration order; an id with no implemented backend (any
id other than "spdx") is mapped to empty valid and non_valid lists
(the key is present, not absent); the "spdx" entry partitions the
input licenses exhaustively and disjointly into the two complementary
filters. -/
theorem validate_license_entries (licenses : List String)
    (vocabularies : List (String × String)) (is_spdx : String → Bool) :
    ((validate_license licenses vocabularies is_spdx).map Prod.fst
      = vocabularies.map Prod.fst)
    ∧ (∀ p ∈ validate_license licenses vocabularies is_spdx,
        p.1 ≠ "spdx" → p.2 = ([], []))
    ∧ (∀ p ∈ validate_license licenses vocabularies is_spdx,
        p.1 = "spdx" →
          p.2.1 = licenses.filter is_spdx
          ∧ p.2.2 = licenses.filter (fun l => !(is_spdx l))) := by
  refine ⟨?_, ?_, ?_⟩
  · unfold validate_license
    rw [List.map_map]
    apply List.map_congr_left
    intro vu _
    dsimp only [Function.comp]
    split <;> rfl
  · intro p hp hne
    unfold validate_license at hp
    obtain ⟨vu, _, hvu⟩ := List.mem_map.mp hp
    subst hvu
    by_cases h : (vu.1 == "spdx") = true
    · rw [if_pos h] at hne
      exact absurd (by simpa using h : vu.1 = "spdx") hne
    · rw [if_neg h]
  · intro p hp heq
    unfold validate_license at hp
    obtain ⟨vu, _, hvu⟩ := List.mem_map.mp hp
    subst hvu
    by_cases h : (vu.1 == "spdx") = true
    · rw [if_pos h]
      simp [spdxPartition_eq_filter]
    · rw [if_neg h] at heq
      exact absurd heq (by simpa using h)

/-- C2 witness: the amended theorem applied at a concrete input, with
the membership and inequality hypotheses discharged there. -/
theorem validate_license_entries_witness :
    ((("eu_licenses" : String), (([] : List String), ([] : List String))).2
      = (([] : List String), ([] : List String)))
    ∧ (validate_license ["MIT"] [("eu_vocab", "u2")] (fun _ => true)).map Prod.fst
      = ["eu_vocab"] :=
  ⟨(validate_license_entries ["MIT"] [("eu_licenses", "u2")] (fun _ => true)).2.1
      ("eu_licenses", ([], [])) (by decide) (by decide),
    (validate_license_entries ["MIT"] [("eu_vocab", "u2")] (fun _ => true)).1⟩

/-- C1 counterexample: the claim says gather always returns a list,
with the fallback wrapping any single scalar. On the code only str
scalars are wrapped (isinstance check at plugin.py line 53): an int
raw value under an unrecognized element kind is returned unchanged,
so the result is not a list. -/
theorem gather_scalar_not_list_counterexample :
    gather (Value.vint 42) "Spatial Coverage" = Value.vint 42
    ∧ (gather (Value.vint 42) "Spatial Coverage").isList = false :=
  ⟨rfl, rfl⟩

/-- C1 amended: gather never raises (it is a total function, mirroring
the catch-all except plus `finally: return`); any rule failure or
unrecognized element kind yields the fallback, which wraps a STRING
raw input into a one-element list and returns every other raw input
unchanged; consequently the result is a list whenever the raw input
is a list — but a non-string scalar raw input can be returned
unchanged, not as a list. -/
theorem gather_never_raises_fallback (element : String) (v : Value) :
    (gatherDispatch element v = none → gather v element = gatherFallback v)
    ∧ (∀ s, gatherFallback (Value.vstr s) = Value.vlist [Value.vstr s])
    ∧ (v.isStr = false → gatherFallback v = v)
    ∧ (v.isList = true → (gather v element).isList = true) := by
  refine ⟨?_, fun s => rfl, ?_, gather_isList_of_isList element v⟩
  · intro h
    unfold gather
    rw [h]
  · intro h
    cases v with
    | vstr s => exact absurd h (by simp [Value.isStr])
    | vint n => rfl
    | vnone => rfl
    | vlist l => rfl
    | vdict d => rfl

/-- C1 witness: the amended theorem applied at concrete inputs, with
each hypothesis discharged there. -/
theorem gather_never_raises_fallback_witness :
    gather (Value.vdict []) "Format" = Value.vdict []
    ∧ (gather (Value.vlist [Value.vint 1]) "Date").isList = true := by
  have h1 := gather_never_raises_fallback "Format" (Value.vdict [])
  have h2 := gather_never_raises_fallback "Date" (Value.vlist [Value.vint 1])
  refine ⟨?_, h2.2.2.2 rfl⟩
  rw [h1.1 rfl]
  exact h1.2.2.1 rfl

/-- C7 counterexample: the claim says the Description / Type /
Language / License kind keeps only text entries, so the mixed input
["abc", 42, "def", None] yields ["abc", "def"]. On the code these
kinds are not dispatched at all (plugin.py lines 38-49 recognize only
five kinds), so the input reaches the fallback and comes back
unchanged, with the int and None still present. -/
theorem gather_description_mixed_counterexample :
    gather (Value.vlist [Value.vstr "abc", Value.vint 42, Value.vstr "def", Value.vnone])
        "Description"
      ≠ Value.vlist [Value.vstr "abc", Value.vstr "def"] := by
  intro h
  have h2 : Value.vlist [Value.vstr "abc", Value.vint 42, Value.vstr "def", Value.vnone]
      = Value.vlist [Value.vstr "abc", Value.vstr "def"] := h
  injection h2 with h3
  exact absurd (congrArg List.length h3) (by decide)

/-- C7 amended: in this plugin the Description, Type, Language and
License element kinds are not recognized by the gather dispatch, so
each of them takes the unrecognized-kind fallback: a list raw input,
mixed or not, is returned unchanged (in particular the mixed input
["abc", 42, "def", None] keeps all four entries). -/
theorem gather_description_family_fallback (v : Value) :
    gather v "Description" = gatherFallback v
    ∧ gather v "Type" = gatherFallback v
    ∧ gather v "Language" = gatherFallback v
    ∧ gather v "License" = gatherFallback v
    ∧ gather (Value.vlist [Value.vstr "abc", Value.vint 42, Value.vstr "def", Value.vnone])
        "Description"
      = Value.vlist [Value.vstr "abc", Value.vint 42, Value.vstr "def", Value.vnone] :=
  ⟨rfl, rfl, rfl, rfl, rfl⟩

/-- The running total of the split-credit loop equals points-per-item
times the number of validated items. -/
theorem splitCreditFoldl (sp : String → Bool) (per : Nat) (l : List String) (acc : Nat) :
    l.foldl (fun a x => if sp x then a + per else a) acc
      = acc + per * (l.filter sp).length := by
  induction l generalizing acc with
  | nil => simp
  | cons hd tl ih =>
    by_cases h : sp hd
    · simp only [List.foldl_cons, if_pos h, ih, List.filter_cons, h, if_true,
        List.length_cons]
      ring
    · simp only [List.foldl_cons, if_neg h, ih, List.filter_cons, h, if_false,
        Bool.false_eq_true]

/-- On any non-empty license list the indicator succeeds and its
points are exactly pyRound100Div N times the validated count. -/
theorem rda_r1_1_02m_points (sp : String → Bool) (l : List String)
    (r : Rat × List (Payload × Rat)) (h : rda_r1_1_02m sp l = Except.ok r) :
    r.1 = ((pyRound100Div l.length * (l.filter sp).length : Nat) : Rat) := by
  unfold rda_r1_1_02m at h
  by_cases hl : l.length = 0
  · rw [if_pos hl] at h
    exact absurd h (by simp)
  · rw [if_neg hl] at h
    simp only [Except.ok.injEq] at h
    rw [← h]
    simp only [splitCreditFoldl, Nat.zero_add]

/-- C3 (confirmed): for every non-empty list of N license strings the
split-credit indicator rda_r1_1_02m scores
pyRound100Div N * (number of licenses the SPDX check validates); in
particular ["MIT", "CC-BY-4.0", "not-a-license"] with exactly the
first two validating yields perItem = 33 and total 66, and a single
valid license yields exactly 100. -/
theorem rda_r1_1_02m_split_credit (sp : String → Bool) :
    (∀ l : List String, l ≠ [] →
      exPoints (rda_r1_1_02m sp l)
        = some ((pyRound100Div l.length * (l.filter sp).length : Nat) : Rat))
    ∧ (sp "MIT" = true → sp "CC-BY-4.0" = true → sp "not-a-license" = false →
      exPoints (rda_r1_1_02m sp ["MIT", "CC-BY-4.0", "not-a-license"]) = some 66)
    ∧ (∀ s, sp s = true → exPoints (rda_r1_1_02m sp [s]) = some 100) := by
  have hmain : ∀ l : List String, l ≠ [] →
      exPoints (rda_r1_1_02m sp l)
        = some ((pyRound100Div l.length * (l.filter sp).length : Nat) : Rat) := by
    intro l hl
    cases hok : rda_r1_1_02m sp l with
    | error e =>
      unfold rda_r1_1_02m at hok
      rw [if_neg (by simpa using hl)] at hok
      exact absurd hok (by simp)
    | ok r =>
      have hpts := rda_r1_1_02m_points sp l r hok
      rw [← hpts]
      rfl
  refine ⟨hmain, ?_, ?_⟩
  · intro h1 h2 h3
    rw [hmain ["MIT", "CC-BY-4.0", "not-a-license"] (by simp)]
    simp only [List.filter_cons, h1, h2, h3, List.filter_nil, List.length_cons,
      List.length_nil, Bool.false_eq_true, if_true, if_false]
    norm_num [pyRound100Div]
  · intro s hs
    rw [hmain [s] (by simp)]
    simp only [List.filter_cons, hs, List.filter_nil, List.length_cons,
      List.length_nil, if_true]
    norm_num [pyRound100Div]

/-- C3 witness: the theorem applied at the concrete SPDX check, with
every hypothesis discharged there. -/
theorem rda_r1_1_02m_split_credit_witness :
    exPoints (rda_r1_1_02m sampleSpdx ["MIT", "CC-BY-4.0", "not-a-license"]) = some 66
    ∧ exPoints (rda_r1_1_02m sampleSpdx ["MIT"]) = some 100 :=
  ⟨(rda_r1_1_02m_split_credit sampleSpdx).2.1 (by decide) (by decide) (by decide),
    (rda_r1_1_02m_split_credit sampleSpdx).2.2 "MIT" (by decide)⟩

/-- C4 (code_bug): on an empty license list rda_r1_1_02m does not
return score 0 with a "no licenses declared" message as the spec
requires; the unguarded `round(max_points / license_num)` at
plugin.py line 1028 divides by zero and the indicator raises. -/
theorem rda_r1_1_02m_empty_raises (sp : String → Bool) :
    rda_r1_1_02m sp [] = Except.error "ZeroDivisionError" :=
  rfl

/-- C6 counterexample: the claim says every indicator's points stay in
[0, 100]. With 6 licenses all validating, perItem = round(100/6) = 17
and the split-credit total is 17 * 6 = 102 > 100. -/
theorem indicator_points_over_100_counterexample :
    exPoints (rda_r1_1_02m (fun _ => true) ["a", "b", "c", "d", "e", "f"]) = some 102
    ∧ ¬ ((102 : Rat) ≤ 100) := by
  constructor
  · decide
  · norm_num

/-- C6 amended: points are within [0, 100] for the presence,
proportional and constant-style indicators modelled here
(rda_i1_01d, rda_f4_01m, rda_a1_01m, rda_i3_03m, rda_a1_02m when it
returns), but NOT for the split-credit rda_r1_1_02m: its points equal
perItem * validatedCount, which is nonnegative yet exceeds 100 for
some inputs (round(100/N) * N > 100, e.g. N = 6 with all licenses
valid gives 102). -/
theorem indicator_points_bounds (env : FairsharingEnv) (b : Bool)
    (vals : List String) (tr : String)
    (terms : List (String × List (String × List String)))
    (fetch : Option Nat) (sp : String → Bool) (l : List String) :
    (0 ≤ (rda_i1_01d env).1 ∧ (rda_i1_01d env).1 ≤ 100)
    ∧ ((rda_f4_01m b).1 = 0 ∨ (rda_f4_01m b).1 = 100)
    ∧ ((rda_a1_01m vals tr).1 = 0 ∨ (rda_a1_01m vals tr).1 = 100)
    ∧ ((rda_i3_03m terms).1 = 0 ∨ (rda_i3_03m terms).1 = 100)
    ∧ (∀ q, exPoints (rda_a1_02m fetch) = some q → q = 0 ∨ q = 100)
    ∧ (∀ q, exPoints (rda_r1_1_02m sp l) = some q →
        0 ≤ q ∧ q = ((pyRound100Div l.length * (l.filter sp).length : Nat) : Rat)) := by
  refine ⟨?_, ?_, ?_, ?_, ?_, ?_⟩
  · unfold rda_i1_01d
    dsimp only
    by_cases h : env.data_standard.isEmpty
    · rw [if_pos h]
      norm_num
    · rw [if_neg h]
      have hn : 0 < env.data_standard.length := by
        cases hd : env.data_standard with
        | nil => rw [hd] at h; exact absurd rfl h
        | cons a t => simp
      have hnQ : (0 : Rat) < (env.data_standard.length : Rat) := by
        exact_mod_cast hn
      have hk : ((env.data_standard.filter
          (fun d => !((env.fairsharing d).filter (fun a => a == d)).isEmpty)).length : Rat)
          ≤ (env.data_standard.length : Rat) := by
        exact_mod_cast List.length_filter_le _ _
      constructor
      · positivity
      · calc ((env.data_standard.filter
              (fun d => !((env.fairsharing d).filter (fun a => a == d)).isEmpty)).length : Rat)
              / (env.data_standard.length : Rat) * 100
            ≤ 1 * 100 := by
              apply mul_le_mul_of_nonneg_right _ (by norm_num)
              exact div_le_one_of_le₀ hk (le_of_lt hnQ)
          _ = 100 := one_mul 100
  · cases b
    · left; rfl
    · right; rfl
  · unfold rda_a1_01m a1_01m_decision
    dsimp only
    by_cases h : vals.isEmpty
    · rw [if_pos h]
      norm_num
    · rw [if_neg h]
      norm_num
  · unfold rda_i3_03m
    dsimp only
    split
    · left; rfl
    · right; rfl
  · intro q hq
    cases fetch with
    | none => exact absurd hq (by simp [rda_a1_02m, exPoints, Except.toOption])
    | some n =>
      simp only [rda_a1_02m] at hq
      rw [apply_ite exPoints] at hq
      by_cases hn : 0 < n
      · rw [if_pos hn] at hq
        right
        have h2 : some (100 : Rat) = some q := hq
        injection h2 with h100
        exact h100.symm
      · rw [if_neg hn] at hq
        left
        have h2 : some (0 : Rat) = some q := hq
        injection h2 with h0
        exact h0.symm
  · intro q hq
    cases hok : rda_r1_1_02m sp l with
    | error e =>
      rw [hok] at hq
      exact absurd hq (by simp [exPoints, Except.toOption])
    | ok r =>
      rw [hok] at hq
      have : some r.1 = some q := hq
      injection this with hr
      have hpts := rda_r1_1_02m_points sp l r hok
      rw [← hr, hpts]
      exact ⟨Nat.cast_nonneg _, rfl⟩

/-- C6 witness: the amended theorem applied at concrete inputs, with
each hypothesis discharged there. -/
theorem indicator_points_bounds_witness :
    (0 ≤ (rda_i1_01d fsEnvSample).1 ∧ (rda_i1_01d fsEnvSample).1 ≤ 100)
    ∧ ((100 : Rat) = 0 ∨ (100 : Rat) = 100)
    ∧ (0 ≤ (100 : Rat)) := by
  have h := indicator_points_bounds fsEnvSample true ["open"] "terms_access" [] (some 2)
    sampleSpdx ["MIT"]
  refine ⟨h.1, ?_, ?_⟩
  · exact h.2.2.2.2.1 100 (by decide)
  · exact (h.2.2.2.2.2 100 (by decide)).1

/-- C5 counterexample: the claim says every aliased indicator,
rda_r1_3_01d included, returns a result identical in points AND
message content to its target. At a concrete environment the target
rda_i1_01d carries a string message entry while rda_r1_3_01d carries
that whole entry list re-wrapped as the message of a single fresh
entry, so the message lists differ. -/
theorem alias_r1_3_01d_counterexample :
    (rda_r1_3_01d fsEnvSample).2 ≠ (rda_i1_01d fsEnvSample).2 := by
  intro h
  simp only [rda_r1_3_01d, rda_i1_01d] at h
  injection h with hhead htail
  injection hhead with hp hq
  exact Payload.noConfusion hp

/-- C5 amended: rda_i1_02d, rda_i2_01d return exactly what rda_i1_01d
returns; rda_i2_01m returns exactly what rda_i1_01m returns;
rda_i3_01m returns exactly what rda_i3_03m returns; rda_r1_3_01d
returns the same points as rda_i1_01d, but its single message entry
wraps the whole message list of the target, so its message content is
not identical to the target. -/
theorem alias_indicators (env : FairsharingEnv) (evb : String × Rat)
    (terms : List (String × List (String × List String))) :
    rda_i1_02d env = rda_i1_01d env
    ∧ rda_i2_01d env = rda_i1_01d env
    ∧ rda_i2_01m evb = rda_i1_01m evb
    ∧ rda_i3_01m terms = rda_i3_03m terms
    ∧ (rda_r1_3_01d env).1 = (rda_i1_01d env).1
    ∧ (rda_r1_3_01d env).2
        = [(Payload.nested (rda_i1_01d env).2, (rda_i1_01d env).1)] :=
  ⟨rfl, rfl, rfl, rfl, rfl, rfl⟩

/-- C8 (confirmed): with at least one access-metadata record the
indicator returns exactly 100 and its message list contains the
combined access-found plus registration-caveat message; and the
both-signals-absent cell of the 2x2 decision chain yields 0 points. -/
theorem rda_a1_01m_access_table (vals : List String) (tr m t : String) :
    (vals ≠ [] →
      (rda_a1_01m vals tr).1 = 100
      ∧ (Payload.s ("Data can be accessed manually" ++ " | "
            ++ "Data is only downloadable upon registration in the SOCIB website"),
          (100 : Rat)) ∈ (rda_a1_01m vals tr).2)
    ∧ (a1_01m_decision 0 0 m t).1 = 0 := by
  constructor
  · intro hv
    have he : vals.isEmpty = false := by
      cases vals with
      | nil => exact absurd rfl hv
      | cons a l => rfl
    unfold rda_a1_01m
    dsimp only
    rw [he]
    unfold a1_01m_decision
    norm_num
  · unfold a1_01m_decision
    norm_num

/-- C8 witness: the theorem applied at a concrete non-empty access
slice, with the hypothesis discharged there. -/
theorem rda_a1_01m_access_table_witness :
    (rda_a1_01m ["open access"] "terms_access").1 = 100
    ∧ (Payload.s ("Data can be accessed manually" ++ " | "
          ++ "Data is only downloadable upon registration in the SOCIB website"),
        (100 : Rat)) ∈ (rda_a1_01m ["open access"] "terms_access").2 :=
  (rda_a1_01m_access_table ["open access"] "terms_access" "m" "t").1 (by decide)

/-- C9 (code_bug): when the landing-page retrieval or parsing raises,
rda_a1_02m does not return a (0, message) tuple as the spec requires:
the except block at plugin.py lines 446-447 only logs, and the return
statement then references the never-assigned locals points and msg,
raising NameError; on a successful fetch a well-formed tuple is
returned. -/
theorem rda_a1_02m_exception_raises :
    rda_a1_02m none = Except.error "NameError"
    ∧ rda_a1_02m (some 1)
      = Except.ok (100, [(Payload.s "JSON-LD available in the landing page. Javascript takes care of formatting it for human readability", 100)])
    ∧ rda_a1_02m (some 0)
      = Except.ok (0, [(Payload.s "No JSON-LD avaialble in the landing page", 0)]) :=
  ⟨rfl, rfl, rfl⟩

/-- C10 (confirmed): the division in rda_i1_01d is guarded by the
non-emptiness check of plugin.py line 718, so the function is total
(no ZeroDivisionError is reachable): an empty configured
data_standard list scores 0, and a non-empty one scores
matching / total * 100 with matching counted by exact abbreviation
equality. -/
theorem rda_i1_01d_guarded (env : FairsharingEnv) :
    (env.data_standard = [] → (rda_i1_01d env).1 = 0)
    ∧ (env.data_standard ≠ [] →
        (rda_i1_01d env).1
          = ((env.data_standard.filter
                (fun d => !((env.fairsharing d).filter (fun a => a == d)).isEmpty)).length : Rat)
            / (env.data_standard.length : Rat) * 100) := by
  constructor
  · intro h
    unfold rda_i1_01d
    dsimp only
    rw [if_pos (by rw [h]; rfl)]
  · intro h
    have he : env.data_standard.isEmpty = false := by
      cases hd : env.data_standard with
      | nil => exact absurd hd h
      | cons a l => rfl
    unfold rda_i1_01d
    dsimp only
    rw [he]
    simp

/-- C10 witness: the theorem applied at concrete environments, with
each hypothesis discharged there. -/
theorem rda_i1_01d_guarded_witness :
    (rda_i1_01d fsEnvEmpty).1 = 0 ∧ (rda_i1_01d fsEnvSample).1 = 100 := by
  constructor
  · exact (rda_i1_01d_guarded fsEnvEmpty).1 rfl
  · have h := (rda_i1_01d_guarded fsEnvSample).2 (by decide)
    rw [h]
    norm_num [fsEnvSample]
